import Mathlib

/-!
Verification of the terminal-emulator core of `aiwindows_client`
(`src/aiwindows_client/ui/terminal_widget.py`) against its
natural-language specification.

The Python source is shallowly embedded: each method becomes a total Lean
function over explicit state; the bytes written to the PTY, the log lines
emitted and the error surfaced to the caller are returned explicitly.
Components that live outside the repository (the `pyte` VT100 interpreter,
`winpty`'s `PtyProcess.read`, Python's `bytes.decode`) are modelled from the
specification's own description of them; every such definition says so in
its doc comment.
-/

namespace AIWindows

/-- State of one OS pseudo-terminal process as seen through `winpty`:
`alive` is the value of `pty.isalive()`. -/
structure Pty where
  alive : Bool
deriving DecidableEq, Repr

/-- Embedding of `pty.write(data)` guarded as in the source: the canvas only
calls `write` when `self.pty` is set and `self.pty.isalive()`; the result is
the bytes actually handed to the PTY (`none` when nothing is written). -/
def ptyWrite (pty : Option Pty) (data : String) : Option String :=
  match pty with
  | some p => if p.alive then some data else none
  | none => none

/-- The Qt key codes that `WindowsTerminalCanvas.keyPressEvent` compares
against; `Key_Other code` stands for every other member of `Qt.Key`. -/
inductive QtKey
  | Key_Return
  | Key_Enter
  | Key_Backspace
  | Key_Tab
  | Key_Escape
  | Key_Up
  | Key_Down
  | Key_Right
  | Key_Left
  | Key_Home
  | Key_End
  | Key_PageUp
  | Key_PageDown
  | Key_Insert
  | Key_Delete
  | Key_C
  | Key_D
  | Key_Z
  | Key_L
  | Key_Other (code : Nat)
deriving DecidableEq, Repr

/-- One `QKeyEvent` as `keyPressEvent` consumes it: the key code, whether
`event.modifiers()` contains `ControlModifier`, and `event.text()`. -/
structure QKeyEvent where
  key : QtKey
  ctrl : Bool
  text : String
deriving DecidableEq, Repr

/-- The `key_map` dictionary of `WindowsTerminalCanvas.keyPressEvent`. -/
def key_map : QtKey → Option String
  | .Key_Return => some "\r"
  | .Key_Enter => some "\r"
  | .Key_Backspace => some "\x7f"
  | .Key_Tab => some "\t"
  | .Key_Escape => some "\x1b"
  | .Key_Up => some "\x1b[A"
  | .Key_Down => some "\x1b[B"
  | .Key_Right => some "\x1b[C"
  | .Key_Left => some "\x1b[D"
  | .Key_Home => some "\x1b[H"
  | .Key_End => some "\x1b[F"
  | .Key_PageUp => some "\x1b[5~"
  | .Key_PageDown => some "\x1b[6~"
  | .Key_Insert => some "\x1b[2~"
  | .Key_Delete => some "\x1b[3~"
  | _ => none

/-- Embedding of `WindowsTerminalCanvas.keyPressEvent`: the Ctrl+C/D/Z/L
branch runs first, then the `key_map` lookup, then the literal `event.text()`
fallback; the value is the bytes written to the PTY via `_write`. -/
def keyPressEventBytes (pty : Option Pty) (ev : QKeyEvent) : Option String :=
  if ev.ctrl ∧ ev.key = QtKey.Key_C then ptyWrite pty "\x03"
  else if ev.ctrl ∧ ev.key = QtKey.Key_D then ptyWrite pty "\x04"
  else if ev.ctrl ∧ ev.key = QtKey.Key_Z then ptyWrite pty "\x1a"
  else if ev.ctrl ∧ ev.key = QtKey.Key_L then ptyWrite pty "\x0c"
  else
    match key_map ev.key with
    | some seq => ptyWrite pty seq
    | none => if ev.text ≠ "" then ptyWrite pty ev.text else none

/-- The specification's input-mapping table (section 4.4), written from the
spec's words for comparison with the embedded `keyPressEventBytes`. -/
def specInputMapping (ev : QKeyEvent) : Option String :=
  if ev.ctrl ∧ ev.key = QtKey.Key_C then some "\x03"
  else if ev.ctrl ∧ ev.key = QtKey.Key_D then some "\x04"
  else if ev.ctrl ∧ ev.key = QtKey.Key_Z then some "\x1a"
  else if ev.ctrl ∧ ev.key = QtKey.Key_L then some "\x0c"
  else
    match ev.key with
    | .Key_Return => some "\r"
    | .Key_Enter => some "\r"
    | .Key_Backspace => some "\x7f"
    | .Key_Tab => some "\t"
    | .Key_Escape => some "\x1b"
    | .Key_Up => some "\x1b[A"
    | .Key_Down => some "\x1b[B"
    | .Key_Right => some "\x1b[C"
    | .Key_Left => some "\x1b[D"
    | .Key_Home => some "\x1b[H"
    | .Key_End => some "\x1b[F"
    | .Key_PageUp => some "\x1b[5~"
    | .Key_PageDown => some "\x1b[6~"
    | .Key_Insert => some "\x1b[2~"
    | .Key_Delete => some "\x1b[3~"
    | _ => if ev.text ≠ "" then some ev.text else none

/-- Modelled from the spec: the colour value `pyte` stores in a cell.
Section 9 of the spec records that the interpreter reports a foreground
set by SGR as a non-integer value (a colour name such as "red") rather
than an integer index; `index` is kept because the source's `paintEvent`
also tests `isinstance(fg, int)`. -/
inductive PyteColor
  | default
  | name (s : String)
  | index (n : Nat)
deriving DecidableEq, Repr

/-- Modelled from the spec: one grid cell (spec section 3 "Cell"):
display character, foreground colour, background colour. -/
structure PChar where
  data : Char
  fg : PyteColor
  bg : PyteColor
deriving DecidableEq, Repr

/-- The blank cell a sparse buffer reports for positions never written. -/
def blankChar : PChar := { data := ' ', fg := .default, bg := .default }

/-- Modelled from the spec: the Screen Buffer (spec section 3) as `pyte`
keeps it — a sparse map from (row, column) to cells, plus cursor position
and the currently selected foreground/background pair (spec section 4.3). -/
structure PyteScreen where
  cols : Nat
  rows : Nat
  buffer : List ((Nat × Nat) × PChar)
  cursorX : Nat
  cursorY : Nat
  curFg : PyteColor
  curBg : PyteColor
deriving DecidableEq, Repr

/-- Look a position up in the sparse buffer, defaulting to the blank cell. -/
def bufGet (b : List ((Nat × Nat) × PChar)) (pos : Nat × Nat) : PChar :=
  match b.lookup pos with
  | some c => c
  | none => blankChar

/-- Store a cell at a position in the sparse buffer. -/
def bufSet (b : List ((Nat × Nat) × PChar)) (pos : Nat × Nat) (c : PChar) :
    List ((Nat × Nat) × PChar) :=
  (pos, c) :: b.filter (fun e => ¬(e.1 = pos))

/-- The cell at (row, col) of a screen. -/
def cellAt (s : PyteScreen) (row col : Nat) : PChar :=
  bufGet s.buffer (row, col)

/-- Modelled from the spec: scroll the buffer up one row — discard the top
row and shift every other row up (spec section 4.3, printable characters). -/
def scrollUp (s : PyteScreen) : PyteScreen :=
  { s with buffer := s.buffer.filterMap (fun e =>
      if e.1.1 = 0 then none else some ((e.1.1 - 1, e.1.2), e.2)) }

/-- Modelled from the spec: advance the cursor one row, scrolling when it
would pass the last row (spec section 4.3). -/
def lineFeed (s : PyteScreen) : PyteScreen :=
  if s.cursorY + 1 ≥ s.rows then scrollUp s
  else { s with cursorY := s.cursorY + 1 }

/-- Modelled from the spec: write a printable character at the cursor with
the currently selected colours, advance the column, wrapping to the next
row on overflow (spec section 4.3). -/
def drawChar (s : PyteScreen) (ch : Char) : PyteScreen :=
  let s1 := { s with
    buffer := bufSet s.buffer (s.cursorY, s.cursorX)
      { data := ch, fg := s.curFg, bg := s.curBg },
    cursorX := s.cursorX + 1 }
  if s1.cursorX ≥ s1.cols then lineFeed { s1 with cursorX := 0 } else s1

/-- Modelled from the spec: the C0 control characters of spec section 4.3 —
CR, LF, TAB (8-column stops), backspace floored at column 0, bell a no-op;
other control characters are ignored. -/
def handleCtrl (s : PyteScreen) (ch : Char) : PyteScreen :=
  if ch = '\r' then { s with cursorX := 0 }
  else if ch = '\n' then lineFeed s
  else if ch = '\t' then
    { s with cursorX := min (s.cols - 1) ((s.cursorX / 8 + 1) * 8) }
  else if ch = Char.ofNat 8 then { s with cursorX := s.cursorX - 1 }
  else s

/-- Split a CSI parameter string at semicolons. -/
def splitSemis : List Char → List (List Char)
  | [] => [[]]
  | c :: rest =>
    let r := splitSemis rest
    if c = ';' then [] :: r
    else
      match r with
      | g :: gs => (c :: g) :: gs
      | [] => [[c]]

/-- Read a nonempty digit string as a number. -/
def digitsToNat : List Char → Option Nat
  | [] => none
  | cs =>
    if cs.all Char.isDigit then
      some (cs.foldl (fun acc c => acc * 10 + (c.toNat - 48)) 0)
    else none

/-- Numeric parameters of a CSI sequence; malformed segments are dropped. -/
def parseParams (cs : List Char) : List Nat :=
  (splitSemis cs).filterMap digitsToNat

/-- Modelled from the spec: the ANSI colour name selected by SGR codes
30–37 / 40–47, as the interpreter reports it (spec sections 4.3 and 9). -/
def ansiName (n : Nat) : PyteColor :=
  if n = 0 then .name "black"
  else if n = 1 then .name "red"
  else if n = 2 then .name "green"
  else if n = 3 then .name "brown"
  else if n = 4 then .name "blue"
  else if n = 5 then .name "magenta"
  else if n = 6 then .name "cyan"
  else if n = 7 then .name "white"
  else .default

/-- Modelled from the spec: apply one SGR code — 0 resets both colours to
the defaults, 30–37 / 40–47 select a named colour, 39 / 49 reset one side,
anything else is ignored (spec section 4.3). -/
def sgrStep (s : PyteScreen) (n : Nat) : PyteScreen :=
  if n = 0 then { s with curFg := .default, curBg := .default }
  else if 30 ≤ n ∧ n ≤ 37 then { s with curFg := ansiName (n - 30) }
  else if n = 39 then { s with curFg := .default }
  else if 40 ≤ n ∧ n ≤ 47 then { s with curBg := ansiName (n - 40) }
  else if n = 49 then { s with curBg := .default }
  else s

/-- Modelled from the spec: dispatch a complete CSI sequence — SGR (`m`),
the cursor movements of spec section 4.3 clamped into the grid, and any
unrecognized final byte absorbed without effect. -/
def csiDispatch (s : PyteScreen) (params : List Char) (final : Char) :
    PyteScreen :=
  let ps := parseParams params
  if final = 'm' then
    (if ps = [] then [0] else ps).foldl sgrStep s
  else
    let n := max 1 (ps.headD 1)
    if final = 'A' then { s with cursorY := s.cursorY - n }
    else if final = 'B' then
      { s with cursorY := min (s.rows - 1) (s.cursorY + n) }
    else if final = 'C' then
      { s with cursorX := min (s.cols - 1) (s.cursorX + n) }
    else if final = 'D' then { s with cursorX := s.cursorX - n }
    else if final = 'H' then
      { s with cursorY := min (s.rows - 1) (ps.headD 1 - 1),
               cursorX := min (s.cols - 1) ((ps.getD 1 1) - 1) }
    else if final = 'J' ∨ final = 'K' then
      { s with buffer := s.buffer.filter (fun e => ¬(s.cursorY ≤ e.1.1)) }
    else s

/-- Modelled from the spec: the escape-parsing state of the interpreter's
stream — ground, after a lone ESC, or inside a CSI sequence whose bytes so
far are buffered (spec section 4.3, unrecognized/incomplete sequences). -/
inductive ParseMode
  | ground
  | sawEsc
  | csi (buf : List Char)
deriving DecidableEq, Repr

/-- Modelled from the spec: the `pyte.Stream`/`pyte.Screen` pair one canvas
owns. -/
structure PyteStream where
  screen : PyteScreen
  mode : ParseMode
deriving DecidableEq, Repr

/-- Modelled from the spec: consume one character of the output stream.
Incomplete escape sequences stay buffered; a CSI longer than a bounded
lookahead, or an unrecognized escape introducer, is discarded — the
interpreter never fails (spec sections 4.3 and its failure semantics). -/
def feedChar (st : PyteStream) (ch : Char) : PyteStream :=
  match st.mode with
  | .ground =>
    if ch = Char.ofNat 27 then { st with mode := .sawEsc }
    else if ch.toNat < 32 then { st with screen := handleCtrl st.screen ch }
    else { st with screen := drawChar st.screen ch }
  | .sawEsc =>
    if ch = '[' then { st with mode := .csi [] }
    else { st with mode := .ground }
  | .csi buf =>
    if 0x40 ≤ ch.toNat ∧ ch.toNat ≤ 0x7e then
      { screen := csiDispatch st.screen buf.reverse ch, mode := .ground }
    else if buf.length ≥ 64 then { st with mode := .ground }
    else { st with mode := .csi (ch :: buf) }

/-- `stream.feed(text)`: consume a whole string. -/
def feedStr (st : PyteStream) (s : String) : PyteStream :=
  s.data.foldl feedChar st

/-- The screen a fresh canvas builds: `pyte.Screen(cols, rows)` with the
constructor defaults `cols=120, rows=30` of `WindowsTerminalCanvas`. -/
def freshScreen : PyteScreen :=
  { cols := 120, rows := 30, buffer := [], cursorX := 0, cursorY := 0,
    curFg := .default, curBg := .default }

/-- A fresh terminal session's interpreter state. -/
def freshStream : PyteStream := { screen := freshScreen, mode := .ground }

/-- The `COLORS_16` palette of `WindowsTerminalCanvas`. -/
def COLORS_16 : List String :=
  ["#0c0c0c", "#c50f1f", "#13a10e", "#c19c00",
   "#0037da", "#881798", "#3a96dd", "#cccccc",
   "#767676", "#e74856", "#16c60c", "#f9f1a5",
   "#3b78ff", "#b4009e", "#61d6d6", "#f2f2f2"]

/-- Embedding of the foreground colour mapping of
`WindowsTerminalCanvas.paintEvent`: `fg = char.fg if char.fg != "default"
else "white"`, then an integer below 16 indexes `COLORS_16`, the string
"white" maps to `#cccccc`, and everything else falls back to `#cccccc`.
The final arm mirrors the unreachable case left after the first line. -/
def mapFg (fg0 : PyteColor) : String :=
  let fg := if fg0 ≠ PyteColor.default then fg0 else PyteColor.name "white"
  match fg with
  | .index n => if n < 16 then COLORS_16.getD n "#cccccc" else "#cccccc"
  | .name s => if s = "white" then "#cccccc" else "#cccccc"
  | .default => "#cccccc"

/-- The byte sequence of the spec's colour-rendering scenario. -/
def c2Input : String := "\x1b[31mRed\x1b[0mNormal"

/-- The interpreter state after feeding the scenario's bytes into a fresh
terminal session. -/
def c2Result : PyteStream := feedStr freshStream c2Input

/-- The replacement character U+FFFD. -/
def replacementChar : Char := Char.ofNat 0xFFFD

/-- A UTF-8 continuation byte. -/
def isCont (b : Nat) : Bool := 0x80 ≤ b && b < 0xC0

/-- Modelled from the spec: the loop of an incremental UTF-8 decoder with
replacement — `pending` continuation bytes are still expected for the code
point accumulated in `acc`; a byte that breaks a pending sequence emits
U+FFFD and is then reconsidered as the start of a fresh sequence. -/
def utf8Loop (pending acc : Nat) : List Nat → List Char
  | [] => if pending = 0 then [] else [replacementChar]
  | b :: rest =>
    if h0 : pending = 0 then
      if b < 0x80 then Char.ofNat b :: utf8Loop 0 0 rest
      else if b < 0xC0 then replacementChar :: utf8Loop 0 0 rest
      else if b < 0xE0 then utf8Loop 1 (b % 0x20) rest
      else if b < 0xF0 then utf8Loop 2 (b % 0x10) rest
      else if b < 0xF8 then utf8Loop 3 (b % 8) rest
      else replacementChar :: utf8Loop 0 0 rest
    else
      if isCont b then
        if pending = 1 then
          Char.ofNat (acc * 0x40 + b % 0x40) :: utf8Loop 0 0 rest
        else utf8Loop (pending - 1) (acc * 0x40 + b % 0x40) rest
      else replacementChar :: utf8Loop 0 0 (b :: rest)
termination_by l => (l.length, pending)
decreasing_by all_goals simp_all; omega

/-- Modelled from the spec: Python's `data.decode("utf-8", errors="replace")`
— a total decoder in which every malformed or truncated sequence becomes
U+FFFD instead of an error. -/
def utf8DecodeReplace (data : List Nat) : List Char :=
  utf8Loop 0 0 data

/-- The body of `WindowsTerminalCanvas._on_data` (the `try` block, on the
path where `pyte` is installed): decode the bytes with replacement, feed
them to the stream, request a repaint. -/
def onDataBody (st : PyteStream) (data : List Nat) : Except String PyteStream :=
  Except.ok ((utf8DecodeReplace data).foldl feedChar st)

/-- `WindowsTerminalCanvas._on_data` with its `except` clause: an error
escaping the body would be logged and absorbed, leaving the previous
interpreter state in place; nothing is ever re-raised to the caller. -/
def onData (st : PyteStream) (data : List Nat) : PyteStream :=
  match onDataBody st data with
  | .ok s => s
  | .error _ => st

/-- Where control sits inside `ConPTYReader.run`: about to test the `while`
condition, blocked inside `self.pty.read(4096)`, or past the loop (the
`finished` signal has been emitted). -/
inductive ReaderPhase
  | checking
  | reading
  | finishedRun
deriving DecidableEq, Repr

/-- What the environment lets the blocked thread observe in one step:
nothing (`tick`), a read that completes with data, or a read that raises. -/
inductive ReaderEvent
  | tick
  | readReturns (data : List Nat)
  | readRaises
deriving DecidableEq, Repr

/-- The reader thread's state: the `self._running` flag, whether
`self.pty.isalive()` holds, and where control sits in `run`. -/
structure ReaderState where
  running : Bool
  ptyAlive : Bool
  phase : ReaderPhase
deriving DecidableEq, Repr

/-- One step of `ConPTYReader.run`. Modelled from the spec for the read
primitive: `pty.read` is `winpty`'s blocking read (spec section 5: "the
Reader Loop's read call may block waiting for shell output"), so while
control is inside `read` a `tick` makes no progress — only a completed or
failing read returns control to the loop, where the flags are re-tested. -/
def readerStep (st : ReaderState) (ev : ReaderEvent) : ReaderState :=
  match st.phase with
  | .checking =>
    if st.running && st.ptyAlive then { st with phase := .reading }
    else { st with phase := .finishedRun }
  | .reading =>
    match ev with
    | .readReturns _ => { st with phase := .checking }
    | .readRaises => { st with phase := .finishedRun }
    | .tick => st
  | .finishedRun => st

/-- `ConPTYReader.stop`: set `self._running = False` — nothing else. -/
def readerStopOp (st : ReaderState) : ReaderState := { st with running := false }

/-- A reader blocked in `pty.read` on an alive PTY, after `stop()`. -/
def readerStopped : ReaderState :=
  readerStopOp { running := true, ptyAlive := true, phase := .reading }

/-- Iterate scheduler steps in which the silent, alive PTY completes no
read. -/
def iterateReadTicks : Nat → ReaderState → ReaderState
  | 0, s => s
  | n + 1, s => iterateReadTicks n (readerStep s ReaderEvent.tick)

/-- Result of `PtyProcess.spawn` as observed by `start`: success or the
exception it raises. -/
inductive SpawnResult
  | ok
  | failure (msg : String)
deriving DecidableEq, Repr

/-- One `WindowsTerminalCanvas` as the tab container sees it: its PTY (none
until a successful `start`) and the shell it was started with. -/
structure TermCanvas where
  pty : Option Pty
  shell : Option String
  readerRunning : Bool
deriving DecidableEq, Repr

/-- The canvas the `WindowsTerminalCanvas` constructor builds. -/
def blankCanvas : TermCanvas := { pty := none, shell := none, readerRunning := false }

/-- Embedding of `WindowsTerminalCanvas.start`: on success the PTY is
spawned and the reader thread started; on failure the `except` clause logs
`"Failed to start ConPTY"` and returns normally. The triple is (canvas
state, log lines, error surfaced to the caller). -/
def canvasStart (sr : SpawnResult) (shell : String) (c : TermCanvas) :
    TermCanvas × List String × Option String :=
  match sr with
  | .ok =>
    ({ pty := some { alive := true }, shell := some shell, readerRunning := true },
     ["ConPTY started: " ++ shell], none)
  | .failure m => (c, ["Failed to start ConPTY: " ++ m], none)

/-- Embedding of `WindowsTerminalCanvas.stop`: stop the reader thread and
force-terminate the PTY process when it is still alive. -/
def canvasStop (c : TermCanvas) : TermCanvas :=
  { c with readerRunning := false,
           pty := c.pty.map (fun p => { p with alive := false }) }

/-- State of `TerminalTabWidget`: the tab list in order, Qt's current tab
index, and the index of the widget holding keyboard focus. -/
structure TabState where
  tabs : List TermCanvas
  currentIndex : Option Nat
  focused : Option Nat
deriving DecidableEq, Repr

/-- Embedding of `TerminalTabWidget._add_terminal`: construct a canvas, add
its tab at the end, make that index current, run `terminal.start(shell)` on
the same object, and give it keyboard focus. The triple is (tab state, log
lines, error surfaced to the caller). -/
def addTerminalOp (sr : SpawnResult) (shell : String) (st : TabState) :
    TabState × List String × Option String :=
  let started := canvasStart sr shell blankCanvas
  ({ tabs := st.tabs ++ [started.1],
     currentIndex := some st.tabs.length,
     focused := some st.tabs.length },
   started.2.1, started.2.2)

/-- First half of `TerminalTabWidget._close_tab`: stop the canvas at the
requested index (a no-op on an invalid index, as `removeTab` is in Qt) and
remove its tab from the list. -/
def closedTabs (st : TabState) (idx : Nat) : List TermCanvas :=
  (match st.tabs.get? idx with
   | some c => st.tabs.set idx (canvasStop c)
   | none => st.tabs).eraseIdx idx

/-- Embedding of `TerminalTabWidget._close_tab`: stop and remove the tab,
and when no tab remains run `_add_terminal()` with the default
`"powershell.exe"` shell (`sr` is the spawn outcome of that replacement). -/
def closeTabOp (sr : SpawnResult) (st : TabState) (idx : Nat) : TabState :=
  if (closedTabs st idx).length = 0 then
    (addTerminalOp sr "powershell.exe" { st with tabs := closedTabs st idx }).1
  else { st with tabs := closedTabs st idx }

/-- Embedding of `WindowsTerminalCanvas._write`: bytes reach `pty.write`
only when the PTY exists and `isalive()`; a raising write is logged and
absorbed. The pair is (bytes actually written, log lines); no error is ever
propagated to the caller. -/
def canvasWrite (pty : Option Pty) (writeRaises : Bool) (data : String) :
    Option String × List String :=
  match pty with
  | some p =>
    if p.alive then
      if writeRaises then (none, ["Write error"]) else (some data, [])
    else (none, [])
  | none => (none, [])

/-- `pyte`'s `screen.resize(new_rows, new_cols)` as the spec describes it
(section 4.3): truncate the grid to the new bounds and clamp the cursor. -/
def screenResize (s : PyteScreen) (newRows newCols : Nat) : PyteScreen :=
  { s with
    rows := newRows, cols := newCols,
    buffer := s.buffer.filter (fun e => e.1.1 < newRows ∧ e.1.2 < newCols),
    cursorX := min s.cursorX (newCols - 1),
    cursorY := min s.cursorY (newRows - 1) }

/-- The canvas state `resizeEvent` touches: current character-cell
dimensions, the font's cell size in pixels, the optional `pyte` screen, the
PTY and the dimensions last pushed to it with `setwinsize`. -/
structure ResizeCanvas where
  cols : Nat
  rows : Nat
  charWidth : Nat
  charHeight : Nat
  screen : Option PyteScreen
  pty : Option Pty
  ptyRows : Nat
  ptyCols : Nat
deriving DecidableEq, Repr

/-- Embedding of `WindowsTerminalCanvas.resizeEvent`: recompute
`max(80, width // char_width)` and `max(24, height // char_height)`; when
either differs, store the new dimensions, resize the `pyte` screen if
present, and push the size to a live PTY inside `try: ... except: pass` —
`setwinsizeFails` selects the raising case, which produces no log line.
The pair is (canvas state, log lines). -/
def resizeEvent (st : ResizeCanvas) (w h : Nat) (setwinsizeFails : Bool) :
    ResizeCanvas × List String :=
  let newCols := max 80 (w / st.charWidth)
  let newRows := max 24 (h / st.charHeight)
  if newCols ≠ st.cols ∨ newRows ≠ st.rows then
    let st1 := { st with
      cols := newCols, rows := newRows,
      screen := st.screen.map (fun s => screenResize s newRows newCols) }
    match st1.pty with
    | some p =>
      if p.alive then
        if setwinsizeFails then (st1, [])
        else ({ st1 with ptyRows := newRows, ptyCols := newCols }, [])
      else (st1, [])
    | none => (st1, [])
  else (st, [])

/-- The cursor block of `WindowsTerminalCanvas.paintEvent`: the filled
rectangle's top-left corner, produced only when
`0 <= cursor.y < self.rows and 0 <= cursor.x < self.cols`; the rectangle is
drawn from the cursor coordinates alone and touches no grid cell. -/
def paintCursorRect (cx cy : Int) (rows cols charWidth charHeight : Nat) :
    Option (Int × Int) :=
  if 0 ≤ cy ∧ cy < (rows : Int) ∧ 0 ≤ cx ∧ cx < (cols : Int) then
    some (cx * (charWidth : Int), cy * (charHeight : Int))
  else none

/-- A concrete resize scenario: a live PTY, an 80×24 canvas with a 10×20
pixel cell, resized to 1000×600 pixels (so 100×30 cells). -/
def resizeExample : ResizeCanvas :=
  { cols := 80, rows := 24, charWidth := 10, charHeight := 20,
    screen := some freshScreen, pty := some { alive := true },
    ptyRows := 24, ptyCols := 80 }

/-- A tab container holding exactly one running terminal. -/
def oneTabState : TabState :=
  { tabs := [{ pty := some { alive := true }, shell := some "cmd.exe",
               readerRunning := true }],
    currentIndex := some 0, focused := some 0 }

/-- A tab container with no tabs (the state before the first terminal). -/
def emptyTabState : TabState := { tabs := [], currentIndex := none, focused := none }

/-- C1: for every key event delivered to a canvas whose PTY process is alive,
`keyPressEvent` writes to the session's PTY exactly the bytes prescribed by
the spec's input-mapping table (Enter → CR, Backspace → DEL, arrow keys →
CSI A/B/C/D, Ctrl+C/D/Z/L → 0x03/0x04/0x1a/0x0c, other printable keys →
their literal text), and no key event produces any other bytes. -/
theorem key_press_matches_spec_table (ev : QKeyEvent) :
    keyPressEventBytes (some { alive := true }) ev = specInputMapping ev := by
  obtain ⟨k, c, t⟩ := ev
  cases k <;> cases c <;>
    simp [keyPressEventBytes, specInputMapping, key_map, ptyWrite]

/-- Closed instance of `key_press_matches_spec_table` at a concrete event
(Ctrl+C with an alive PTY), checking the mapping evaluates to `0x03`. -/
theorem key_press_matches_spec_table_witness :
    keyPressEventBytes (some { alive := true })
        { key := QtKey.Key_C, ctrl := true, text := "\x03" } =
      specInputMapping { key := QtKey.Key_C, ctrl := true, text := "\x03" } ∧
    specInputMapping { key := QtKey.Key_C, ctrl := true, text := "\x03" } =
      some "\x03" :=
  ⟨key_press_matches_spec_table { key := QtKey.Key_C, ctrl := true, text := "\x03" },
   by decide⟩

/-- C2, counterexample: after feeding `"\x1b[31mRed\x1b[0mNormal"` into a
fresh session, the cell holding 'R' has foreground reported as the name
"red", so `paintEvent` paints it with the fallback `#cccccc` and not with
`COLORS_16[1] = "#c50f1f"` — the claim's rendering is false on this input. -/
theorem sgr_red_painted_fallback_not_index1 :
    (cellAt c2Result.screen 0 0).data = 'R' ∧
    (cellAt c2Result.screen 0 0).fg = PyteColor.name "red" ∧
    mapFg (cellAt c2Result.screen 0 0).fg = "#cccccc" ∧
    COLORS_16.getD 1 "#cccccc" = "#c50f1f" ∧
    ¬(mapFg (cellAt c2Result.screen 0 0).fg = COLORS_16.getD 1 "#cccccc") := by
  decide

/-- C2, amended: feeding `"\x1b[31mRed\x1b[0mNormal"` into a fresh session
stores "Red" with foreground name "red" and "Normal" with the default
foreground, and `paintEvent`'s colour mapping paints every one of those
cells — "Red" and "Normal" alike — with the single fallback `#cccccc`,
which is also the default-foreground colour. -/
theorem sgr_scenario_rendering :
    (cellAt c2Result.screen 0 0).data = 'R' ∧
    (cellAt c2Result.screen 0 1).data = 'e' ∧
    (cellAt c2Result.screen 0 2).data = 'd' ∧
    (cellAt c2Result.screen 0 3).data = 'N' ∧
    (cellAt c2Result.screen 0 4).data = 'o' ∧
    (cellAt c2Result.screen 0 5).data = 'r' ∧
    (cellAt c2Result.screen 0 6).data = 'm' ∧
    (cellAt c2Result.screen 0 7).data = 'a' ∧
    (cellAt c2Result.screen 0 8).data = 'l' ∧
    (cellAt c2Result.screen 0 0).fg = PyteColor.name "red" ∧
    (cellAt c2Result.screen 0 1).fg = PyteColor.name "red" ∧
    (cellAt c2Result.screen 0 2).fg = PyteColor.name "red" ∧
    (cellAt c2Result.screen 0 3).fg = PyteColor.default ∧
    (cellAt c2Result.screen 0 4).fg = PyteColor.default ∧
    (cellAt c2Result.screen 0 5).fg = PyteColor.default ∧
    (cellAt c2Result.screen 0 6).fg = PyteColor.default ∧
    (cellAt c2Result.screen 0 7).fg = PyteColor.default ∧
    (cellAt c2Result.screen 0 8).fg = PyteColor.default ∧
    mapFg (cellAt c2Result.screen 0 0).fg = "#cccccc" ∧
    mapFg (cellAt c2Result.screen 0 1).fg = "#cccccc" ∧
    mapFg (cellAt c2Result.screen 0 2).fg = "#cccccc" ∧
    mapFg (cellAt c2Result.screen 0 3).fg = "#cccccc" ∧
    mapFg (cellAt c2Result.screen 0 8).fg = "#cccccc" ∧
    mapFg PyteColor.default = "#cccccc" := by
  decide

/-- C3: `_on_data` never raises to its caller — for every prior interpreter
state and every byte sequence (malformed, truncated or non-UTF-8 included)
the body runs to a successful result, which `_on_data` returns; the decoder
replaces undecodable bytes and the interpreter absorbs malformed escape
sequences instead of failing. -/
theorem on_data_never_raises (st : PyteStream) (data : List Nat) :
    ∃ s, onDataBody st data = Except.ok s ∧ onData st data = s :=
  ⟨(utf8DecodeReplace data).foldl feedChar st, rfl, rfl⟩

/-- Adding a terminal always appends exactly one tab, whatever the spawn
outcome. -/
theorem addTerminal_tabs_length (sr : SpawnResult) (shell : String)
    (st : TabState) :
    (addTerminalOp sr shell st).1.tabs.length = st.tabs.length + 1 := by
  simp [addTerminalOp]

/-- C4: the claim fails on the code — after `stop()` is called while the
reader thread is blocked in `pty.read(4096)` on an alive PTY that emits no
further output, the `run` body makes no progress at all: the `_running`
flag is only re-tested between reads, and nothing cancels the blocking
read, so the loop never exits, contradicting the claimed bounded exit. -/
theorem reader_stuck_in_read_after_stop (n : Nat) :
    (iterateReadTicks n readerStopped).phase = ReaderPhase.reading ∧
    readerStopped.running = false := by
  constructor
  · induction n with
    | zero => rfl
    | succ n ih => exact ih
  · rfl

/-- C5, counterexample: when `PtyProcess.spawn` raises during
`_add_terminal` on an empty container, the tab is still created (the count
goes from 0 to 1, not 0) and no error is surfaced to any caller — the
claim's "surfaced and tab not created" is false at this input. -/
theorem spawn_failure_tab_still_created :
    (addTerminalOp (SpawnResult.failure "spawn failed") "powershell.exe"
        emptyTabState).1.tabs.length = 1 ∧
    ¬((addTerminalOp (SpawnResult.failure "spawn failed") "powershell.exe"
        emptyTabState).1.tabs.length = 0) ∧
    (addTerminalOp (SpawnResult.failure "spawn failed") "powershell.exe"
        emptyTabState).2.2 = none := by
  decide

/-- C5, amended: when spawning the shell or allocating the pty fails,
`start` catches the exception, logs it and surfaces nothing to its caller;
the tab was already added before `start` ran and remains in the collection,
holding a canvas with no PTY. -/
theorem spawn_failure_swallowed (m shell : String) (st : TabState) :
    (addTerminalOp (SpawnResult.failure m) shell st).1.tabs.length =
      st.tabs.length + 1 ∧
    (addTerminalOp (SpawnResult.failure m) shell st).2.2 = none ∧
    (addTerminalOp (SpawnResult.failure m) shell st).2.1 ≠ [] ∧
    (addTerminalOp (SpawnResult.failure m) shell st).1.tabs.getLast? =
      some blankCanvas := by
  refine ⟨addTerminal_tabs_length _ _ _, rfl, ?_, ?_⟩
  · simp [addTerminalOp, canvasStart]
  · simp [addTerminalOp, canvasStart]

/-- C6, counterexample: a pixel-size change on a live session computes the
new dimensions correctly, but when `pty.setwinsize` raises, the bare
`except: pass` swallows the failure without writing any log line — the
claim's "failures are logged" is false at this input. -/
theorem resize_pty_failure_not_logged :
    (resizeEvent resizeExample 1000 600 true).1.cols = 100 ∧
    (resizeEvent resizeExample 1000 600 true).1.rows = 30 ∧
    (resizeEvent resizeExample 1000 600 true).1.ptyCols = 80 ∧
    (resizeEvent resizeExample 1000 600 true).1.ptyRows = 24 ∧
    (resizeEvent resizeExample 1000 600 true).2 = [] ∧
    ¬((resizeEvent resizeExample 1000 600 true).2 ≠ []) := by
  decide

/-- C6, amended: on every pixel-size change the new dimensions are
`cols = max(80, width // charWidth)` and `rows = max(24, height //
charHeight)`; when unchanged nothing happens, when changed the screen
buffer is resized and the size is pushed to a live PTY, and a failing
`setwinsize` is non-fatal and silently swallowed — not logged, not
surfaced (the log output is empty in every case). -/
theorem resize_event_contract (st : ResizeCanvas) (w h : Nat) (fails : Bool)
    (_hw : 0 < st.charWidth) (_hh : 0 < st.charHeight) :
    (resizeEvent st w h fails).1.cols = max 80 (w / st.charWidth) ∧
    (resizeEvent st w h fails).1.rows = max 24 (h / st.charHeight) ∧
    (resizeEvent st w h fails).2 = [] ∧
    ((max 80 (w / st.charWidth) = st.cols ∧
      max 24 (h / st.charHeight) = st.rows) →
      (resizeEvent st w h fails).1 = st) ∧
    (¬(max 80 (w / st.charWidth) = st.cols ∧
       max 24 (h / st.charHeight) = st.rows) →
      ((resizeEvent st w h fails).1.screen =
        st.screen.map (fun s =>
          screenResize s (max 24 (h / st.charHeight))
            (max 80 (w / st.charWidth))) ∧
       (st.pty = some { alive := true } → fails = false →
         (resizeEvent st w h fails).1.ptyRows = max 24 (h / st.charHeight) ∧
         (resizeEvent st w h fails).1.ptyCols = max 80 (w / st.charWidth)) ∧
       (fails = true →
         (resizeEvent st w h fails).1.ptyRows = st.ptyRows ∧
         (resizeEvent st w h fails).1.ptyCols = st.ptyCols))) := by
  by_cases hch : max 80 (w / st.charWidth) ≠ st.cols ∨
      max 24 (h / st.charHeight) ≠ st.rows
  · rcases hp : st.pty with _ | p
    · simp [resizeEvent, hch, hp]
      tauto
    · rcases p with ⟨_ | _⟩ <;> cases fails <;>
        simp [resizeEvent, hch, hp] <;> tauto
  · simp [resizeEvent, hch]
    push_neg at hch
    simp [hch.1, hch.2]

/-- Closed instance of `resize_event_contract` at the concrete scenario
`resizeExample` resized to 1000×600 pixels with `setwinsize` succeeding. -/
theorem resize_event_contract_witness :
    (resizeEvent resizeExample 1000 600 false).1.cols =
      max 80 (1000 / resizeExample.charWidth) ∧
    (resizeEvent resizeExample 1000 600 false).2 = [] :=
  ⟨(resize_event_contract resizeExample 1000 600 false (by decide)
      (by decide)).1,
   (resize_event_contract resizeExample 1000 600 false (by decide)
      (by decide)).2.2.1⟩

/-- C7: after any close-tab operation the tab collection is non-empty, and
closing the only open tab leaves exactly one tab: an auto-created
replacement whose canvas was started with the default `powershell.exe`
shell, holding a freshly spawned, live PTY. -/
theorem close_tab_collection_nonempty (st : TabState) (idx : Nat)
    (hone : st.tabs.length = 1) (hidx : idx < st.tabs.length) :
    (∀ st2 idx2 sr, 1 ≤ (closeTabOp sr st2 idx2).tabs.length) ∧
    (closeTabOp SpawnResult.ok st idx).tabs.length = 1 ∧
    ∃ c, (closeTabOp SpawnResult.ok st idx).tabs = [c] ∧
      c.shell = some "powershell.exe" ∧ c.pty = some { alive := true } ∧
      c.readerRunning = true := by
  have hgen : ∀ st2 idx2 sr, 1 ≤ (closeTabOp sr st2 idx2).tabs.length := by
    intro st2 idx2 sr
    unfold closeTabOp
    split
    · rw [addTerminal_tabs_length]
      exact Nat.le_add_left 1 _
    · rename_i h
      exact Nat.one_le_iff_ne_zero.mpr h
  have hzero : idx = 0 := by omega
  subst hzero
  obtain ⟨tabs, ci, f⟩ := st
  simp only at hone
  rcases List.length_eq_one.mp hone with ⟨c, hc⟩
  subst hc
  exact ⟨hgen, rfl,
    ⟨{ pty := some { alive := true }, shell := some "powershell.exe",
       readerRunning := true }, rfl, rfl, rfl, rfl⟩⟩

/-- Closed instance of `close_tab_collection_nonempty` at the concrete
one-tab container `oneTabState`, closing index 0. -/
theorem close_tab_collection_nonempty_witness :
    oneTabState.tabs.length = 1 ∧ 0 < oneTabState.tabs.length ∧
    ((∀ st2 idx2 sr, 1 ≤ (closeTabOp sr st2 idx2).tabs.length) ∧
     (closeTabOp SpawnResult.ok oneTabState 0).tabs.length = 1 ∧
     ∃ c, (closeTabOp SpawnResult.ok oneTabState 0).tabs = [c] ∧
       c.shell = some "powershell.exe" ∧ c.pty = some { alive := true } ∧
       c.readerRunning = true) :=
  ⟨by decide, by decide,
   close_tab_collection_nonempty oneTabState 0 (by decide) (by decide)⟩

/-- C8, counterexample: a write to a session whose process has exited is
dropped without sending any bytes and without raising, but nothing is
logged — the claim's "the dropped write is logged" is false at this
input. -/
theorem write_dead_session_silent :
    canvasWrite (some { alive := false }) false "dir\r" = (none, []) ∧
    ¬((canvasWrite (some { alive := false }) false "dir\r").2 ≠ []) := by
  decide

/-- C8, amended: every write to a session whose shell process has exited is
silently dropped — no bytes are sent, no exception reaches the caller, and
no log line is produced (the `isalive()` guard skips the write entirely;
only a write that raises on a live session is logged). -/
theorem write_dead_session_dropped (data : String) (writeRaises : Bool) :
    canvasWrite (some { alive := false }) writeRaises data = (none, []) := rfl

/-- C9: `paintEvent` produces the cursor rectangle exactly when the cursor
satisfies `0 ≤ y < rows` and `0 ≤ x < cols` for the canvas's current
dimensions; outside these bounds no cursor is drawn, and the rectangle is
computed from the cursor coordinates alone, touching no grid cell. -/
theorem cursor_drawn_iff_in_bounds (cx cy : Int) (rows cols cw ch : Nat) :
    (paintCursorRect cx cy rows cols cw ch).isSome = true ↔
      (0 ≤ cy ∧ cy < (rows : Int) ∧ 0 ≤ cx ∧ cx < (cols : Int)) := by
  unfold paintCursorRect
  split <;> simp_all

/-- C10: `_add_terminal` appends the new terminal's tab, makes it the
current tab and gives its canvas keyboard focus, so key events are routed
to the newly created session (index `tabs.length`, past every previously
existing tab). -/
theorem add_terminal_sets_active_and_focus (sr : SpawnResult)
    (shell : String) (st : TabState) :
    (addTerminalOp sr shell st).1.currentIndex = some st.tabs.length ∧
    (addTerminalOp sr shell st).1.focused = some st.tabs.length ∧
    (addTerminalOp sr shell st).1.tabs.length = st.tabs.length + 1 :=
  ⟨rfl, rfl, addTerminal_tabs_length sr shell st⟩

end AIWindows
